import Mathlib

/-!
Verification of the mcp-rules rules engine (src/mcp_rules_engine.py and
src/actions.py) against its natural-language specification.

The engine's own code (rule orchestration, action dispatch, validation,
the concrete action catalog) is embedded from the source files.  The
rule-expression evaluator is the external `json_logic` library, whose code
is not part of the repository, so it is modelled from the specification
(section 4.1 of spec.md); definitions modelled this way say so in their
doc comments.  Wall-clock timing fields are abstracted to 0, and JSON
numbers are modelled as integers (no claim exercises fractional
arithmetic).
-/

namespace MCPRules

/-- JSON-style values: the tagged-value representation over
null/bool/number/string/sequence/mapping that rule expressions and data
contexts are made of.  Mappings are modelled as ordered association
lists. -/
inductive Value where
  | null : Value
  | bool : Bool → Value
  | num : Int → Value
  | str : String → Value
  | arr : List Value → Value
  | obj : List (String × Value) → Value

mutual

/-- Structural (deep) equality on values, without cross-type coercion
(spec section 4.1: "equality is structural ... without cross-type
coercion"). -/
def Value.beq : Value → Value → Bool
  | .null, .null => true
  | .bool a, .bool b => a == b
  | .num a, .num b => a == b
  | .str a, .str b => a == b
  | .arr a, .arr b => Value.beqList a b
  | .obj a, .obj b => Value.beqObj a b
  | _, _ => false
termination_by structural v => v

/-- Pointwise structural equality of value sequences. -/
def Value.beqList : List Value → List Value → Bool
  | [], [] => true
  | a :: as, b :: bs => Value.beq a b && Value.beqList as bs
  | _, _ => false
termination_by structural l => l

/-- Pointwise structural equality of association-list mappings. -/
def Value.beqObj : List (String × Value) → List (String × Value) → Bool
  | [], [] => true
  | (k, a) :: as, (l, b) :: bs => k == l && Value.beq a b && Value.beqObj as bs
  | _, _ => false
termination_by structural l => l

end

instance : BEq Value := ⟨Value.beq⟩

/-- A data context is a mapping from string keys to values
(Python `Dict[str, Any]`). -/
abbrev Ctx := List (String × Value)

/-- Python truthiness, as applied by `bool(...)` in
`RulesEngine.evaluate_rule` (src/mcp_rules_engine.py line 93): None, 0,
empty string, empty list and empty dict are falsy. -/
def pyTruthy : Value → Bool
  | .null => false
  | .bool b => b
  | .num n => n != 0
  | .str s => s != ""
  | .arr xs => !xs.isEmpty
  | .obj kvs => !kvs.isEmpty

/-- Truthiness exactly as enumerated by the specification sentence
"null/zero/empty-sequence/empty-string/false are falsy; everything else
truthy".  Note that an empty mapping is not in the falsy list, so it is
truthy here, unlike under Python truthiness. -/
def specTruthiness : Value → Bool
  | .null => false
  | .bool b => b
  | .num n => n != 0
  | .str s => s != ""
  | .arr xs => !xs.isEmpty
  | .obj _ => true

/-- Python string `str()` rendering used inside f-strings of the action
handlers.  Composite values are abstracted to fixed placeholders; no
claim inspects them. -/
def pyStr : Value → String
  | .null => "None"
  | .bool b => if b then "True" else "False"
  | .num n => toString n
  | .str s => s
  | .arr _ => "<list>"
  | .obj _ => "<dict>"

/-- Embeds Python `sep in s` (membership of a character in a string). -/
def pyContains (sep : Char) : List Char → Bool
  | [] => false
  | c :: rest => c == sep || pyContains sep rest

/-- Embeds Python `s.split(sep)` on the character list of a string:
splitting on every occurrence of the separator, keeping empty segments,
so the result always has one more segment than there are separators. -/
def pySplit (sep : Char) : List Char → List (List Char)
  | [] => [[]]
  | c :: rest =>
    if c = sep then [] :: pySplit sep rest
    else
      match pySplit sep rest with
      | [] => [[c]]
      | w :: ws => (c :: w) :: ws

/-- Python `s.split(sep)` producing strings, as used on dotted variable
paths and action specifications. -/
def pySplitOn (s : String) (sep : Char) : List String :=
  (pySplit sep s.toList).map (fun cs => String.mk cs)

/-- Python `sep in s` on strings. -/
def pyIn (sep : Char) (s : String) : Bool :=
  pyContains sep s.toList

/-- Lookup of a key in an association-list mapping (Python `data[key]`). -/
def lookupKey (kvs : List (String × Value)) (k : String) : Option Value :=
  match kvs with
  | [] => none
  | (k', v) :: rest => if k' = k then some v else lookupKey rest k

/-- Python `data.get(key, default)`. -/
def dictGet (d : Ctx) (k : String) (dflt : Value) : Value :=
  (lookupKey d k).getD dflt

/-- Modelled from the spec: descent of a dotted variable path one segment
at a time through nested mappings; `none` when a segment is missing or
the current value is not a mapping. -/
def getPath : Value → List String → Option Value
  | v, [] => some v
  | .obj kvs, k :: ks =>
    match lookupKey kvs k with
    | some v => getPath v ks
    | none => none
  | _, _ :: _ => none

/-- Rule expressions: a node is a literal, a variable reference (dotted
path with optional default), or an operator application (spec section 3,
"Expression"). -/
inductive Expr where
  | lit : Value → Expr
  | var : String → Option Value → Expr
  | op : String → List Expr → Expr

/-- Modelled from the spec: variable-reference resolution.  The path is
split on dots and resolved by descent; an absent path yields the declared
default if specified, else null — never an error. -/
def resolveVar (ctx : Ctx) (path : String) (dflt : Option Value) : Value :=
  match getPath (.obj ctx) (pySplitOn path '.') with
  | some v => v
  | none => dflt.getD .null

/-- Coercion of a value toward a number, used by numeric comparison and
arithmetic operators (spec section 4.1: "numeric comparisons coerce
operands toward numbers when possible and fail evaluation if coercion is
impossible"). -/
def toNum : Value → Option Int
  | .num n => some n
  | .bool b => some (if b then 1 else 0)
  | .str s => s.toInt?
  | _ => none

/-- Numeric comparison of two evaluated operands, failing with an error
that names the operator and the offending operand position when coercion
is impossible. -/
def numCompare (opname : String) (f : Int → Int → Bool) (a b : Value) : Except String Value :=
  match toNum a, toNum b with
  | some x, some y => .ok (.bool (f x y))
  | none, _ => .error ("operator " ++ opname ++ ": cannot coerce operand 1 to a number")
  | _, none => .error ("operator " ++ opname ++ ": cannot coerce operand 2 to a number")

/-- Numeric arithmetic on two evaluated operands, with the same coercion
policy as `numCompare`. -/
def numArith (opname : String) (f : Int → Int → Int) (a b : Value) : Except String Value :=
  match toNum a, toNum b with
  | some x, some y => .ok (.num (f x y))
  | none, _ => .error ("operator " ++ opname ++ ": cannot coerce operand 1 to a number")
  | _, none => .error ("operator " ++ opname ++ ": cannot coerce operand 2 to a number")

/-- Names of the non-short-circuiting operators implemented by the
modelled evaluator. -/
def knownOps : List String :=
  ["==", "!=", ">", ">=", "<", "<=", "!", "+", "-", "*", "/", "%", "in", "cat", "merge"]

/-- Modelled from the spec: application of a non-short-circuiting
operator to its already-evaluated operands.  Equality is structural
without cross-type coercion; numeric operators coerce toward numbers;
an unknown operator name or a wrong arity is an evaluation error, not a
silent no-op.  The spec's `substr`/`map`/`filter`/`reduce` operators are
not exercised by any claim and are left out of `knownOps`, so they fall
to the unknown-operator error. -/
def applyOp (name : String) (vs : List Value) : Except String Value :=
  match name, vs with
  | "==", [a, b] => .ok (.bool (a == b))
  | "!=", [a, b] => .ok (.bool (a != b))
  | ">", [a, b] => numCompare ">" (fun x y => y < x) a b
  | ">=", [a, b] => numCompare ">=" (fun x y => y ≤ x) a b
  | "<", [a, b] => numCompare "<" (fun x y => x < y) a b
  | "<=", [a, b] => numCompare "<=" (fun x y => x ≤ y) a b
  | "!", [a] => .ok (.bool (!(pyTruthy a)))
  | "+", [a, b] => numArith "+" (fun x y => x + y) a b
  | "-", [a, b] => numArith "-" (fun x y => x - y) a b
  | "*", [a, b] => numArith "*" (fun x y => x * y) a b
  | "/", [a, b] =>
    match toNum a, toNum b with
    | some _, some 0 => .error "operator /: division by zero"
    | some x, some y => .ok (.num (x / y))
    | none, _ => .error "operator /: cannot coerce operand 1 to a number"
    | _, none => .error "operator /: cannot coerce operand 2 to a number"
  | "%", [a, b] =>
    match toNum a, toNum b with
    | some _, some 0 => .error "operator %: division by zero"
    | some x, some y => .ok (.num (x % y))
    | none, _ => .error "operator %: cannot coerce operand 1 to a number"
    | _, none => .error "operator %: cannot coerce operand 2 to a number"
  | "in", [a, .arr xs] => .ok (.bool (xs.contains a))
  | "in", [.str a, .str b] => .ok (.bool (decide (a.toList <:+: b.toList)))
  | "in", [_, _] => .error "operator in: second operand is not a sequence or string"
  | "cat", args =>
    .ok (.str (args.foldl (fun acc v => acc ++ pyStr v) ""))
  | "merge", args =>
    .ok (.arr (args.flatMap (fun v => match v with | .arr xs => xs | w => [w])))
  | op, args =>
    if knownOps.contains op then
      .error ("operator " ++ op ++ ": wrong number of operands (" ++ toString args.length ++ ")")
    else
      .error ("Unrecognized operation " ++ op)

mutual

/-- Modelled from the spec: the recursive expression evaluator
(spec section 4.1).  A literal evaluates to itself; a variable reference
resolves through the context; `and`/`or` short-circuit; every other
operator evaluates its children left to right and applies `applyOp`.
Failure is an `Except.error`, never an unhandled exception. -/
def evalExpr (ctx : Ctx) : Expr → Except String Value
  | .lit v => .ok v
  | .var p d => .ok (resolveVar ctx p d)
  | .op "and" args => evalAnd ctx args
  | .op "or" args => evalOr ctx args
  | .op name args =>
    match evalList ctx args with
    | .error e => .error e
    | .ok vs => applyOp name vs
termination_by structural e => e

/-- Modelled from the spec: `and` evaluates children left to right and
stops at the first falsy child, returning that child's value (not a
coerced boolean); if all children are truthy it returns the last child's
value. -/
def evalAnd (ctx : Ctx) : List Expr → Except String Value
  | [] => .ok (.bool true)
  | [e] => evalExpr ctx e
  | e :: e' :: rest =>
    match evalExpr ctx e with
    | .error msg => .error msg
    | .ok v => if pyTruthy v then evalAnd ctx (e' :: rest) else .ok v
termination_by structural l => l

/-- Modelled from the spec: `or` evaluates children left to right and
stops at the first truthy child, returning that child's value. -/
def evalOr (ctx : Ctx) : List Expr → Except String Value
  | [] => .ok (.bool false)
  | [e] => evalExpr ctx e
  | e :: e' :: rest =>
    match evalExpr ctx e with
    | .error msg => .error msg
    | .ok v => if pyTruthy v then .ok v else evalOr ctx (e' :: rest)
termination_by structural l => l

/-- Modelled from the spec: left-to-right evaluation of an operator's
child expressions, propagating the first error. -/
def evalList (ctx : Ctx) : List Expr → Except String (List Value)
  | [] => .ok []
  | e :: rest =>
    match evalExpr ctx e with
    | .error msg => .error msg
    | .ok v =>
      match evalList ctx rest with
      | .error msg => .error msg
      | .ok vs => .ok (v :: vs)
termination_by structural l => l

end

/-- Modelled from the spec: the entry point `json_logic.jsonLogic(rule,
data)` of the external evaluator library, as specified in section 4.1:
it returns a value or fails with an evaluation error. -/
def jsonLogic (rule : Expr) (data : Ctx) : Except String Value :=
  evalExpr data rule

/-- Rule definition model (src/mcp_rules_engine.py lines 28-33). -/
structure RuleDefinition where
  name : String
  description : Option String := none
  rule : Expr
  actions : Option (List String) := none

/-- Result of rule evaluation (src/mcp_rules_engine.py lines 43-48).
The wall-clock `execution_time_ms` is abstracted to 0. -/
structure RuleEvaluationResult where
  rule_name : String
  matched : Bool
  execution_time_ms : Nat := 0
  error : Option String := none
deriving DecidableEq

/-- Result of action execution (src/mcp_rules_engine.py lines 51-57).
Python `result: Any = None` is modelled as a `Value` defaulting to null;
wall-clock timing is abstracted to 0. -/
structure ActionExecutionResult where
  action : String
  success : Bool
  result : Value := .null
  error : Option String := none
  execution_time_ms : Nat := 0

/-- Result of rule evaluation with action execution
(src/mcp_rules_engine.py lines 60-66). -/
structure RuleActionExecutionResult where
  rule_name : String
  matched : Bool
  rule_execution_time_ms : Nat := 0
  actions_executed : List ActionExecutionResult
  rule_error : Option String := none

/-- Embeds RulesEngine.validate_rule (src/mcp_rules_engine.py lines
75-82): a dry evaluation against the empty data context; success gives
(True, None), an evaluation error is caught and returned as (False,
error text). -/
def RulesEngine.validate_rule (rule : Expr) : Bool × Option String :=
  match jsonLogic rule [] with
  | .ok _ => (true, none)
  | .error e => (false, some e)

/-- Embeds RulesEngine.evaluate_rule (src/mcp_rules_engine.py lines
84-97): evaluates the rule, coerces a non-boolean result with Python
`bool(...)`, and catches any evaluation error into (False, error text);
it never raises to its caller. -/
def RulesEngine.evaluate_rule (rule : Expr) (data : Ctx) : Bool × Option String :=
  match jsonLogic rule data with
  | .ok v => (pyTruthy v, none)
  | .error e => (false, some e)

/-- Embeds RulesEngine.evaluate_ruleset (src/mcp_rules_engine.py lines
99-124): one RuleEvaluationResult per input rule, in input order.  The
per-rule try/except of the source can only catch exceptions from
`evaluate_rule`, which itself never raises, so the loop is a map. -/
def RulesEngine.evaluate_ruleset (rules : List RuleDefinition) (data : Ctx) :
    List RuleEvaluationResult :=
  rules.map (fun rule_def =>
    let r := RulesEngine.evaluate_rule rule_def.rule data
    { rule_name := rule_def.name
      matched := r.1
      execution_time_ms := 0
      error := r.2 })

/-- Embeds NotificationActions.send_email (src/actions.py lines 18-26). -/
def NotificationActions.send_email (data : Ctx) : Value :=
  .obj [("action", .str "send_email"),
        ("recipient", dictGet data "email" (.str "unknown@example.com")),
        ("subject", .str ("Rule triggered for " ++ pyStr (dictGet data "user" (.str "unknown user")))),
        ("status", .str "sent")]

/-- Embeds NotificationActions.send_sms (src/actions.py lines 28-36). -/
def NotificationActions.send_sms (data : Ctx) : Value :=
  .obj [("action", .str "send_sms"),
        ("phone", dictGet data "phone" (.str "+1234567890")),
        ("message", .str ("Alert: Rule triggered for " ++ pyStr (dictGet data "user" (.str "unknown user")))),
        ("status", .str "sent")]

/-- Embeds NotificationActions.log_event (src/actions.py lines 38-47). -/
def NotificationActions.log_event (data : Ctx) : Value :=
  .obj [("action", .str "log_event"),
        ("event_type", .str "rule_triggered"),
        ("data", .obj data),
        ("timestamp", .str "2024-01-01T00:00:00Z"),
        ("status", .str "logged")]

/-- Embeds SecurityActions.block_user (src/actions.py lines 53-62). -/
def SecurityActions.block_user (data : Ctx) : Value :=
  .obj [("action", .str "block_user"),
        ("user_id", dictGet data "user_id" (.str "unknown")),
        ("reason", .str "Rule violation detected"),
        ("status", .str "blocked")]

/-- Embeds SecurityActions.require_mfa (src/actions.py lines 64-73). -/
def SecurityActions.require_mfa (data : Ctx) : Value :=
  .obj [("action", .str "require_mfa"),
        ("user_id", dictGet data "user_id" (.str "unknown")),
        ("mfa_method", .str "sms"),
        ("status", .str "required")]

/-- Embeds SecurityActions.create_incident (src/actions.py lines 75-84). -/
def SecurityActions.create_incident (data : Ctx) : Value :=
  .obj [("action", .str "create_incident"),
        ("incident_id", .str "INC-001"),
        ("severity", .str "high"),
        ("description", .str ("Security rule triggered for " ++ pyStr (dictGet data "user" (.str "unknown user")))),
        ("status", .str "created")]

/-- Embeds BusinessActions.apply_discount (src/actions.py lines 90-100). -/
def BusinessActions.apply_discount (data : Ctx) : Value :=
  .obj [("action", .str "apply_discount"),
        ("order_id", dictGet data "order_id" (.str "unknown")),
        ("discount_percent", dictGet data "discount_percent" (.num 10)),
        ("status", .str "applied")]

/-- Embeds BusinessActions.escalate_support (src/actions.py lines 102-111). -/
def BusinessActions.escalate_support (data : Ctx) : Value :=
  .obj [("action", .str "escalate_support"),
        ("ticket_id", dictGet data "ticket_id" (.str "unknown")),
        ("escalation_level", .str "manager"),
        ("status", .str "escalated")]

/-- Embeds BusinessActions.update_inventory (src/actions.py lines 113-123). -/
def BusinessActions.update_inventory (data : Ctx) : Value :=
  .obj [("action", .str "update_inventory"),
        ("product_id", dictGet data "product_id" (.str "unknown")),
        ("quantity", dictGet data "quantity" (.num 0)),
        ("status", .str "updated")]

/-- Methods declared in the class body of NotificationActions
(src/actions.py lines 15-47); inherited attributes are layered on by
`instanceGetattr`. -/
def notificationMethods : String → Option (Ctx → Value)
  | "send_email" => some NotificationActions.send_email
  | "send_sms" => some NotificationActions.send_sms
  | "log_event" => some NotificationActions.log_event
  | _ => none

/-- Methods declared in the class body of SecurityActions
(src/actions.py lines 50-84); inherited attributes are layered on by
`instanceGetattr`. -/
def securityMethods : String → Option (Ctx → Value)
  | "block_user" => some SecurityActions.block_user
  | "require_mfa" => some SecurityActions.require_mfa
  | "create_incident" => some SecurityActions.create_incident
  | _ => none

/-- Methods declared in the class body of BusinessActions
(src/actions.py lines 87-123); inherited attributes are layered on by
`instanceGetattr`. -/
def businessMethods : String → Option (Ctx → Value)
  | "apply_discount" => some BusinessActions.apply_discount
  | "escalate_support" => some BusinessActions.escalate_support
  | "update_inventory" => some BusinessActions.update_inventory
  | _ => none

/-- Python's NotImplemented singleton, the value returned by the
inherited rich-comparison methods when given a non-comparable argument;
abstracted as a tagged string, since no claim inspects this payload. -/
def notImplementedValue : Value := .str "NotImplemented"

/-- Inherited attributes of `object` that resolve on every class
instance and return a value instead of raising when invoked with the
data dict: the six rich comparisons and the `__subclasshook__`
classmethod, all of which return NotImplemented.  The remaining
inherited attributes of `object` raise a TypeError when invoked with the
data dict, producing the same failure-outcome shape as a lookup miss, so
they are modelled as misses (their error text differs only in wording,
which no claim inspects). -/
def inheritedObjectMethods : String → Option (Ctx → Value)
  | "__eq__" => some (fun _ => notImplementedValue)
  | "__ne__" => some (fun _ => notImplementedValue)
  | "__lt__" => some (fun _ => notImplementedValue)
  | "__le__" => some (fun _ => notImplementedValue)
  | "__gt__" => some (fun _ => notImplementedValue)
  | "__ge__" => some (fun _ => notImplementedValue)
  | "__subclasshook__" => some (fun _ => notImplementedValue)
  | _ => none

/-- Embeds Python attribute lookup on a class instance, as performed by
`getattr(action_instance, method_name)` in execute_action: the methods
declared in the class body, else the inherited attributes of `object`. -/
def instanceGetattr (declared : String → Option (Ctx → Value)) (name : String) :
    Option (Ctx → Value) :=
  match declared name with
  | some f => some f
  | none => inheritedObjectMethods name

/-- Embeds `getattr(actions, class_name)` followed by instantiation
(src/actions.py defines exactly these three classes).  Since
src/actions.py exists alongside the engine, `import actions` succeeds
and the ImportError mock branch of execute_action is unreachable.
Module attributes other than the three classes (the imports, the logger,
and the module dunders) mostly raise a TypeError when the dispatch tries
to call them, matching the failure shape of a lookup miss, and are
modelled as misses; the few value-returning reflection chains through
module dunders (such as an id naming the module's own __dir__ and a list
method) are not modelled — dispatch totality fails in the source on that
very ground, witnessed under claim C3 at the modelled instance-level
__eq__ case. -/
def actionsClasses : String → Option (String → Option (Ctx → Value))
  | "NotificationActions" => some (instanceGetattr notificationMethods)
  | "SecurityActions" => some (instanceGetattr securityMethods)
  | "BusinessActions" => some (instanceGetattr businessMethods)
  | _ => none

/-- The handlers actually declared in src/actions.py — the registry in
the specification's sense (a registry key and its set of named
handlers), with no inherited attributes. -/
def declaredHandlers (class_name method_name : String) : Option (Ctx → Value) :=
  match class_name with
  | "NotificationActions" => notificationMethods method_name
  | "SecurityActions" => securityMethods method_name
  | "BusinessActions" => businessMethods method_name
  | _ => none

/-- The error message raised for a malformed action specification
(src/mcp_rules_engine.py lines 155 and 159, and repeated in the
validate_rule tool at lines 305 and 307). -/
def invalidSpecMsg (s : String) : String :=
  "Invalid action specification: " ++ s ++ ". Expected format: class.method"

/-- Shape of a failure ActionExecutionResult as built by the outer
except-clause of execute_action (src/mcp_rules_engine.py lines 190-197):
success False, the caught error text, and the result left at None. -/
def failRes (spec : String) (msg : String) : ActionExecutionResult :=
  { action := spec, success := false, result := .null, error := some msg, execution_time_ms := 0 }

/-- Embeds ActionExecutor.execute_action (src/mcp_rules_engine.py lines
148-197).  The parsing step checks that a dot occurs and that the split
yields exactly two parts, raising the invalid-specification error
otherwise; then the class and method are resolved on the actions module,
a miss raising an attribute error; the resolved handler is invoked with
the full data context.  Every raise is caught by the enclosing
try/except into a failure result, so the function is total.  The Python
AttributeError texts are abbreviated to a fixed prefix plus the missing
name. -/
def ActionExecutor.execute_action (action_spec : String) (data : Ctx) : ActionExecutionResult :=
  if pyIn '.' action_spec = false then
    failRes action_spec (invalidSpecMsg action_spec)
  else
    match pySplitOn action_spec '.' with
    | [class_name, method_name] =>
      (match actionsClasses class_name with
       | none => failRes action_spec ("module actions has no attribute " ++ class_name)
       | some methods =>
         match methods method_name with
         | none => failRes action_spec ("object " ++ class_name ++ " has no attribute " ++ method_name)
         | some handler =>
           { action := action_spec
             success := true
             result := handler data
             error := none
             execution_time_ms := 0 })
    | _ => failRes action_spec (invalidSpecMsg action_spec)

/-- Embeds ActionExecutor.execute_actions (src/mcp_rules_engine.py lines
199-201): a list comprehension executing each action independently, in
input order. -/
def ActionExecutor.execute_actions (action_specs : List String) (data : Ctx) :
    List ActionExecutionResult :=
  action_specs.map (fun spec => ActionExecutor.execute_action spec data)

/-- Embeds Python truthiness of the Optional[List[str]] `actions` field
as tested by `if matched and rule_def.actions:` (src/mcp_rules_engine.py
line 266): None and the empty list are falsy. -/
def pyTruthyActions : Option (List String) → Bool
  | none => false
  | some l => !l.isEmpty

/-- Embeds the execute_rule_actions tool (src/mcp_rules_engine.py lines
245-289) after its pydantic parsing of the request payload: per rule,
evaluate; when the rule matched and declares a non-empty action list,
execute all its actions; always append one RuleActionExecutionResult.
The per-rule try/except can only catch exceptions from evaluate_rule and
execute_actions, which are total, so the loop is a map. -/
def execute_rule_actions (rules : List RuleDefinition) (data : Ctx) :
    List RuleActionExecutionResult :=
  rules.map (fun rule_def =>
    let r := RulesEngine.evaluate_rule rule_def.rule data
    let actions_executed :=
      if r.1 && pyTruthyActions rule_def.actions then
        ActionExecutor.execute_actions (rule_def.actions.getD []) data
      else []
    { rule_name := rule_def.name
      matched := r.1
      rule_execution_time_ms := 0
      actions_executed := actions_executed
      rule_error := r.2 })

/-- Report shape of the validate_rule tool (src/mcp_rules_engine.py
lines 309-314). -/
structure ValidateRuleReport where
  rule_valid : Bool
  rule_error : Option String
  actions_valid : Bool
  action_errors : Option (List String)

/-- The per-action lexical check of the validate_rule tool
(src/mcp_rules_engine.py lines 303-307): an error message is appended
when the id has no dot or does not split into exactly two parts;
otherwise no error. -/
def actionSpecCheck (action : String) : Option String :=
  if pyIn '.' action = false then
    some (invalidSpecMsg action)
  else if (pySplitOn action '.').length ≠ 2 then
    some (invalidSpecMsg action)
  else
    none

/-- Embeds the validate_rule tool (src/mcp_rules_engine.py lines
293-314): dry rule validation combined with the purely lexical check of
every provided action id, accumulating all defects. -/
def validate_rule (rule : Expr) (actions : Option (List String)) : ValidateRuleReport :=
  let acts := actions.getD []
  let rv := RulesEngine.validate_rule rule
  let action_errors := acts.filterMap actionSpecCheck
  { rule_valid := rv.1
    rule_error := rv.2
    actions_valid := action_errors.length == 0
    action_errors := if action_errors.isEmpty then none else some action_errors }

/-- An action specification is resolvable when it splits on the dot into
exactly a class part and a method part and both resolve through the
modelled attribute lookup (declared methods plus the modelled inherited
object attributes); execute_action succeeds exactly on these
specifications. -/
def specResolves (s : String) : Bool :=
  match pySplitOn s '.' with
  | [class_name, method_name] =>
    match actionsClasses class_name with
    | some methods => (methods method_name).isSome
    | none => false
  | _ => false

/-- The action-id well-formedness predicate as worded by the claim:
the id splits on the separator into exactly two non-empty segments. -/
def twoNonEmptySegments (s : String) : Bool :=
  match pySplitOn s '.' with
  | [a, b] => a != "" && b != ""
  | _ => false

/-- Rebuilding a string from its character list is the identity. -/
theorem string_mk_toList (s : String) : String.mk s.toList = s := by
  cases s
  rfl

/-- Splitting never yields the empty list of segments. -/
theorem pySplit_ne_nil (sep : Char) (l : List Char) : pySplit sep l ≠ [] := by
  cases l with
  | nil => simp [pySplit]
  | cons c rest =>
    unfold pySplit
    by_cases h : c = sep
    · simp [h]
    · rw [if_neg h]
      cases hr : pySplit sep rest with
      | nil => simp
      | cons w ws => simp

/-- A string without the separator splits into the single segment that is
the whole string. -/
theorem pySplit_of_not_contains (sep : Char) (l : List Char)
    (h : pyContains sep l = false) : pySplit sep l = [l] := by
  induction l with
  | nil => rfl
  | cons c rest ih =>
    unfold pyContains at h
    rw [Bool.or_eq_false_iff] at h
    obtain ⟨h1, h2⟩ := h
    unfold pySplit
    rw [if_neg (by simpa using h1), ih h2]

/-- String-level version of `pySplit_of_not_contains`. -/
theorem pySplitOn_of_not_in (s : String) (h : pyIn '.' s = false) :
    pySplitOn s '.' = [s] := by
  unfold pySplitOn
  unfold pyIn at h
  rw [pySplit_of_not_contains _ _ h]
  simp [string_mk_toList]

/-- Central case analysis of execute_action: an action specification
either resolves, in which case the outcome is a success record carrying
the handler's return value with a null error, or it does not, in which
case the outcome is a failure record built by `failRes`. -/
theorem execute_action_total_char (s : String) (data : Ctx) :
    (specResolves s = true ∧ ∃ f : Ctx → Value, ActionExecutor.execute_action s data =
      { action := s, success := true, result := f data, error := none, execution_time_ms := 0 }) ∨
    (specResolves s = false ∧ ∃ msg, ActionExecutor.execute_action s data = failRes s msg) := by
  unfold ActionExecutor.execute_action specResolves
  by_cases hdot : pyIn '.' s = false
  · right
    rw [if_pos hdot, pySplitOn_of_not_in s hdot]
    exact ⟨rfl, _, rfl⟩
  · rw [if_neg hdot]
    cases hs : pySplitOn s '.' with
    | nil => exact (pySplit_ne_nil '.' s.toList (by simpa [pySplitOn] using hs)).elim
    | cons a t =>
      cases t with
      | nil => right; exact ⟨rfl, _, rfl⟩
      | cons b t2 =>
        cases t2 with
        | nil =>
          cases hc : actionsClasses a with
          | none => right; simp [hc]
          | some methods =>
            cases hm : methods b with
            | none => right; simp [hc, hm]
            | some f => left; simp [hc, hm]; exact ⟨f, rfl⟩
        | cons c t3 => right; exact ⟨rfl, _, rfl⟩

/-- Claim C1: for every list of rule definitions and every data context,
both evaluate_ruleset (dry run) and execute_rule_actions produce exactly
one outcome record per input rule, returned in the same order as the
input rule list, even when the evaluation of some rule fails with an
error (the statement is universally quantified, so it covers failing
rules). -/
theorem claim_C1 (rules : List RuleDefinition) (data : Ctx) :
    (RulesEngine.evaluate_ruleset rules data).length = rules.length ∧
    (execute_rule_actions rules data).length = rules.length ∧
    (∀ i : Nat, ((RulesEngine.evaluate_ruleset rules data)[i]?).map (fun r => r.rule_name) =
      (rules[i]?).map (fun rd => rd.name)) ∧
    (∀ i : Nat, ((execute_rule_actions rules data)[i]?).map (fun r => r.rule_name) =
      (rules[i]?).map (fun rd => rd.name)) := by
  refine ⟨?_, ?_, ?_, ?_⟩
  · simp [RulesEngine.evaluate_ruleset]
  · simp [execute_rule_actions]
  · intro i
    simp only [RulesEngine.evaluate_ruleset, List.getElem?_map, Option.map_map]
    cases rules[i]? <;> rfl
  · intro i
    simp only [execute_rule_actions, List.getElem?_map, Option.map_map]
    cases rules[i]? <;> rfl

/-- Claim C2: evaluate_rule never raises: when evaluation fails with
error text e it returns (False, e), and in execute_rule_actions the
corresponding rule is recorded with matched False, the error attached as
rule_error, and no action executed. -/
theorem claim_C2 (rule : Expr) (data : Ctx) (e : String)
    (h : jsonLogic rule data = .error e) :
    RulesEngine.evaluate_rule rule data = (false, some e) ∧
    ∀ (rules : List RuleDefinition) (i : Nat) (rd : RuleDefinition),
      rules[i]? = some rd → rd.rule = rule →
      (execute_rule_actions rules data)[i]? =
        some { rule_name := rd.name, matched := false, rule_execution_time_ms := 0,
               actions_executed := [], rule_error := some e } := by
  have hev : RulesEngine.evaluate_rule rule data = (false, some e) := by
    unfold RulesEngine.evaluate_rule
    rw [h]
  refine ⟨hev, ?_⟩
  intro rules i rd hi hr
  unfold execute_rule_actions
  rw [List.getElem?_map, hi]
  simp [hr, hev]

/-- Witness for C2 at a rule using an unknown operator. -/
theorem claim_C2_witness :
    RulesEngine.evaluate_rule (.op "frobnicate" []) [] =
      (false, some "Unrecognized operation frobnicate") ∧
    (execute_rule_actions
        [{ name := "r2", rule := .op "frobnicate" [],
           actions := some ["NotificationActions.send_email"] }] [])[0]? =
      some { rule_name := "r2", matched := false, rule_execution_time_ms := 0,
             actions_executed := [], rule_error := some "Unrecognized operation frobnicate" } := by
  have h := claim_C2 (.op "frobnicate" []) [] "Unrecognized operation frobnicate" rfl
  exact ⟨h.1, h.2 _ 0 _ rfl rfl⟩

/-- Claim C3: the code contradicts the claim's dispatch-totality half at
the id NotificationActions.__eq__ — it names no declared handler of the
registry, so per the claim it is unresolvable and must yield a failure
outcome with a non-null error, yet getattr resolves the inherited
object.__eq__, which returns NotImplemented instead of raising, and the
outcome is a success with a null error.  The independence and ordering
half of the claim does hold: execute_actions is a pointwise map, so each
outcome depends only on its own specification and outcomes come back in
input order. -/
theorem claim_C3_code_bug :
    (declaredHandlers "NotificationActions" "__eq__" = none ∧
     (ActionExecutor.execute_action "NotificationActions.__eq__" []).success = true ∧
     (ActionExecutor.execute_action "NotificationActions.__eq__" []).error = none ∧
     (ActionExecutor.execute_action "NotificationActions.__eq__" []).result = notImplementedValue) ∧
    (∀ (specs : List String) (data : Ctx) (i : Nat),
      (ActionExecutor.execute_actions specs data)[i]? =
        (specs[i]?).map (fun s => ActionExecutor.execute_action s data)) := by
  refine ⟨⟨rfl, rfl, rfl, rfl⟩, ?_⟩
  intro specs data i
  simp [ActionExecutor.execute_actions, List.getElem?_map]

/-- Claim C4: when the first child of an and-expression evaluates to a
falsy value v, the whole expression evaluates to v itself for every
second child B, even a B whose own evaluation would fail, which is the
observable meaning of B not being evaluated; dually, or returns the
first truthy child's value. -/
theorem claim_C4 (ctx : Ctx) :
    (∀ (A B : Expr) (v : Value), evalExpr ctx A = .ok v → pyTruthy v = false →
      jsonLogic (.op "and" [A, B]) ctx = .ok v) ∧
    (∀ (A B : Expr) (v : Value), evalExpr ctx A = .ok v → pyTruthy v = true →
      jsonLogic (.op "or" [A, B]) ctx = .ok v) := by
  constructor
  · intro A B v hA hv
    show evalAnd ctx [A, B] = .ok v
    rw [show evalAnd ctx [A, B] =
        (match evalExpr ctx A with
         | .error msg => .error msg
         | .ok v => if pyTruthy v then evalAnd ctx [B] else .ok v) from rfl]
    rw [hA]
    simp [hv]
  · intro A B v hA hv
    show evalOr ctx [A, B] = .ok v
    rw [show evalOr ctx [A, B] =
        (match evalExpr ctx A with
         | .error msg => .error msg
         | .ok v => if pyTruthy v then .ok v else evalOr ctx [B]) from rfl]
    rw [hA]
    simp [hv]

/-- Witness for C4: the falsy literal 0 short-circuits and, the truthy
literal 7 short-circuits or, both against a second child whose own
evaluation fails with an unknown operator, and both return the deciding
child's numeric value rather than a boolean. -/
theorem claim_C4_witness :
    jsonLogic (.op "and" [.lit (.num 0), .op "boom" []]) [] = .ok (.num 0) ∧
    jsonLogic (.op "or" [.lit (.num 7), .op "boom" []]) [] = .ok (.num 7) ∧
    jsonLogic (.op "boom" []) [] = .error "Unrecognized operation boom" :=
  ⟨(claim_C4 []).1 (.lit (.num 0)) (.op "boom" []) (.num 0) rfl rfl,
   (claim_C4 []).2 (.lit (.num 7)) (.op "boom" []) (.num 7) rfl rfl,
   rfl⟩

/-- Claim C5: a variable reference always evaluates successfully, and
when its dotted path does not resolve in the context it yields the
declared default value, or null when no default is given. -/
theorem claim_C5 (ctx : Ctx) (path : String) (dflt : Option Value) :
    (∃ v, evalExpr ctx (.var path dflt) = .ok v) ∧
    (getPath (.obj ctx) (pySplitOn path '.') = none →
      evalExpr ctx (.var path dflt) = .ok (dflt.getD .null)) := by
  constructor
  · exact ⟨_, rfl⟩
  · intro h
    show Except.ok (resolveVar ctx path dflt) = _
    unfold resolveVar
    rw [h]

/-- Witness for C5: the path a.b is missing in the empty context and
yields the declared default 7; with no default it yields null. -/
theorem claim_C5_witness :
    evalExpr [] (.var "a.b" (some (.num 7))) = .ok (.num 7) ∧
    evalExpr [] (.var "a.b" none) = .ok .null :=
  ⟨(claim_C5 [] "a.b" (some (.num 7))).2 rfl,
   (claim_C5 [] "a.b" none).2 rfl⟩

/-- Counterexample to C6 as stated: the variable x evaluates to the
empty mapping, which the claim's truthiness enumeration (null, zero,
empty sequence, empty string, false are falsy, everything else truthy)
calls truthy, yet evaluate_rule — which applies Python bool() — reports
matched = false. -/
theorem claim_C6_counterexample :
    jsonLogic (.var "x" none) [("x", .obj [])] = .ok (.obj []) ∧
    specTruthiness (.obj []) = true ∧
    RulesEngine.evaluate_rule (.var "x" none) [("x", .obj [])] = (false, none) :=
  ⟨rfl, rfl, rfl⟩

/-- Claim C6 (amended): on successful evaluation, matched equals Python
truthiness of the evaluated value — null, zero, empty sequence, empty
string, false, and also an empty mapping are falsy, everything else is
truthy — and in particular the age-over-18 example over age 25 yields
matched = true. -/
theorem claim_C6 (rule : Expr) (ctx : Ctx) :
    (∀ v, jsonLogic rule ctx = .ok v →
      RulesEngine.evaluate_rule rule ctx = (pyTruthy v, none)) ∧
    RulesEngine.evaluate_rule (.op ">" [.var "age" none, .lit (.num 18)])
      [("age", .num 25)] = (true, none) := by
  constructor
  · intro v hv
    unfold RulesEngine.evaluate_rule
    rw [hv]
  · rfl

/-- Witness for C6 at a non-boolean evaluation result and at the
age-over-18 example. -/
theorem claim_C6_witness :
    RulesEngine.evaluate_rule (.lit (.arr [.num 1])) [] = (pyTruthy (.arr [.num 1]), none) ∧
    RulesEngine.evaluate_rule (.op ">" [.var "age" none, .lit (.num 18)])
      [("age", .num 25)] = (true, none) :=
  ⟨(claim_C6 (.lit (.arr [.num 1])) []).1 _ rfl,
   (claim_C6 (.lit (.bool true)) []).2⟩

/-- Counterexample to C7 as stated: the id "." splits into two empty
segments, which the claim requires to be reported as an action error,
yet the lexical check accepts it — the validate_rule tool reports
actions_valid and execute_action proceeds past parsing to the registry
lookup. -/
theorem claim_C7_counterexample :
    twoNonEmptySegments "." = false ∧
    actionSpecCheck "." = none ∧
    (validate_rule (.lit (.bool true)) (some ["."])).actions_valid = true ∧
    (ActionExecutor.execute_action "." []).error = some "module actions has no attribute " :=
  ⟨rfl, rfl, rfl, rfl⟩

/-- Claim C7 (amended): the lexical action-id check accepts a string if
and only if it splits on the separator into exactly two segments, which
may be empty — ids with zero or several separators are reported with the
invalid-specification error, also by the parsing step of
execute_action; emptiness of the segments is not checked lexically. -/
theorem claim_C7 (s : String) :
    (actionSpecCheck s = none ↔ (pySplitOn s '.').length = 2) ∧
    ∀ data : Ctx, (ActionExecutor.execute_action s data).error = some (invalidSpecMsg s) ∨
      (pySplitOn s '.').length = 2 := by
  have hlen : pyIn '.' s = false → (pySplitOn s '.').length = 1 := fun h => by
    rw [pySplitOn_of_not_in s h]
    rfl
  constructor
  · unfold actionSpecCheck
    by_cases hdot : pyIn '.' s = false
    · rw [if_pos hdot]
      constructor
      · intro h; cases h
      · intro h2; rw [hlen hdot] at h2; cases h2
    · rw [if_neg hdot]
      by_cases h2 : (pySplitOn s '.').length = 2
      · simp [h2]
      · simp [h2]
  · intro data
    unfold ActionExecutor.execute_action
    by_cases hdot : pyIn '.' s = false
    · rw [if_pos hdot]; left; rfl
    · rw [if_neg hdot]
      cases hs : pySplitOn s '.' with
      | nil => left; rfl
      | cons a t =>
        cases t with
        | nil => left; rfl
        | cons b t2 =>
          cases t2 with
          | nil => right; rfl
          | cons c t3 => left; rfl

/-- Witness for C7: a well-formed id passes the lexical check, a dotless
id is reported with the invalid-specification error. -/
theorem claim_C7_witness :
    actionSpecCheck "a.b" = none ∧
    (ActionExecutor.execute_action "nodot" []).error = some (invalidSpecMsg "nodot") := by
  constructor
  · exact (claim_C7 "a.b").1.mpr rfl
  · rcases (claim_C7 "nodot").2 [] with h | h
    · exact h
    · exact absurd h (by decide)

/-- Claim C8: a matching rule declaring the action Notify.sendEmail,
when no Notify key is registered on the actions module, yields a result
with matched true and exactly one action outcome, that outcome having
success false and the error naming the unresolved Notify registry key. -/
theorem claim_C8 (data : Ctx) (nm : String) (rule : Expr)
    (hmatch : RulesEngine.evaluate_rule rule data = (true, none)) :
    execute_rule_actions [{ name := nm, rule := rule, actions := some ["Notify.sendEmail"] }] data =
      [{ rule_name := nm, matched := true, rule_execution_time_ms := 0,
         actions_executed :=
           [{ action := "Notify.sendEmail", success := false, result := .null,
              error := some "module actions has no attribute Notify", execution_time_ms := 0 }],
         rule_error := none }] := by
  unfold execute_rule_actions
  simp only [List.map]
  rw [hmatch]
  rfl

/-- Witness for C8 at a rule that trivially matches. -/
theorem claim_C8_witness :
    execute_rule_actions
        [{ name := "r", rule := .lit (.bool true), actions := some ["Notify.sendEmail"] }] [] =
      [{ rule_name := "r", matched := true, rule_execution_time_ms := 0,
         actions_executed :=
           [{ action := "Notify.sendEmail", success := false, result := .null,
              error := some "module actions has no attribute Notify", execution_time_ms := 0 }],
         rule_error := none }] :=
  claim_C8 [] "r" (.lit (.bool true)) rfl

/-- Claim C9: validate_rule returns ok with no error exactly when the
dry evaluation of the expression against the empty context succeeds;
when the dry evaluation fails it returns ok false with the error text;
being a total function it never raises. -/
theorem claim_C9 (rule : Expr) :
    (RulesEngine.validate_rule rule = (true, none) ↔ ∃ v, jsonLogic rule [] = .ok v) ∧
    (∀ e, jsonLogic rule [] = .error e → RulesEngine.validate_rule rule = (false, some e)) := by
  unfold RulesEngine.validate_rule
  constructor
  · cases h : jsonLogic rule [] with
    | ok v => simp
    | error e => simp
  · intro e he
    rw [he]

/-- Witness for C9 at an unknown-operator rule and at a literal rule. -/
theorem claim_C9_witness :
    RulesEngine.validate_rule (.op "mystery" []) = (false, some "Unrecognized operation mystery") ∧
    RulesEngine.validate_rule (.lit (.num 1)) = (true, none) :=
  ⟨(claim_C9 (.op "mystery" [])).2 _ rfl,
   (claim_C9 (.lit (.num 1))).1.mpr ⟨_, rfl⟩⟩

/-- Claim C10: every ActionExecutionResult returned by execute_action
satisfies the invariant that success implies a null error, and failure
implies a non-null error and a null result. -/
theorem claim_C10 (s : String) (data : Ctx) :
    ((ActionExecutor.execute_action s data).success = true ∧
     (ActionExecutor.execute_action s data).error = none) ∨
    ((ActionExecutor.execute_action s data).success = false ∧
     (ActionExecutor.execute_action s data).error ≠ none ∧
     (ActionExecutor.execute_action s data).result = Value.null) := by
  rcases execute_action_total_char s data with ⟨_, f, hok⟩ | ⟨_, msg, hf⟩
  · left
    rw [hok]
    exact ⟨rfl, rfl⟩
  · right
    rw [hf]
    exact ⟨rfl, by simp [failRes], rfl⟩

end MCPRules
